import Mathlib

/-!
# grid-smart: the client interaction state machine of `static/js/app.js`

The script keeps its state in closure variables (`mapCenter`, `startMarker`,
`endMarker`, `routeLine`, `selectedStartNode`, `selectedEndNode`), in the Leaflet
map (the layers added to it) and in the page (texts, flags and lists of a few
elements).  Here that state is one record, every function of the script is a
function from state to state, and a `fetch` is split in two: the call appends the
request to `pending`, and the arrival of its response runs the `.then` / `.catch`
continuation as a separate step.

Conventions of the embedding:
* `undefined` and `null` are both `none` (the script only ever tests them for
  truthiness);
* a Leaflet object is identified by a number drawn from `nextLayer` when it is
  created; `map.removeLayer` drops the layer with that identity;
* coordinates are exact rationals; `toFixed` is kept symbolic (`Text.toFixed`);
* the viewport (`setView`, `panTo`, `fitBounds`), `console.error` and the
  pending timers of temporary overlays are not part of the state; Leaflet calls
  are total except `fitBounds` on the bounds of a line without points, which
  throws (`fitBoundsThrows`).
-/

namespace GridSmart

/-! ## Data -/

/-- A node identifier as it arrives in the backend's JSON: a number or a string. -/
inductive NodeId where
  | num (n : Int)
  | str (s : String)
  deriving DecidableEq, Repr

/-- JavaScript truthiness of an identifier: `0` and `''` are falsy. -/
def NodeId.truthy : NodeId → Bool
  | .num n => n != 0
  | .str s => s != ""

/-- Truthiness of a variable holding `null` or an identifier. -/
def truthy (v : Option NodeId) : Bool :=
  match v with
  | none => false
  | some i => i.truthy

/-- The `type` argument of the script: `'start'` or `'end'`. -/
inductive Slot where
  | start
  | finish
  deriving DecidableEq, Repr

/-- A node object: `node_id`, `lat`, `lon`, `description`, and (in geocode results) `distance`. -/
structure Node where
  node_id : NodeId
  lat : Rat
  lon : Rat
  description : String
  distance : Option Rat
  deriving DecidableEq

/-- What a Leaflet layer is; a marker carries the background colour of its icon. -/
inductive LayerKind where
  | tileLayer
  | marker (lat lon : Rat) (color : String)
  | polyline (points : List (Rat × Rat))
  | circleMarker (lat lon : Rat)
  | circle (lat lon : Rat)
  deriving DecidableEq

/-- A layer on the map: the identity of the Leaflet object and what it is. -/
structure Layer where
  id : Nat
  kind : LayerKind
  deriving DecidableEq

/-- Icon colour of the start marker. -/
def startColor : String := "#4cd964"

/-- Icon colour of the end marker. -/
def endColor : String := "#ff453a"

/-- Text content of an element: a literal, or `x.toFixed(digits)`. -/
inductive Text where
  | lit (s : String)
  | toFixed (x : Rat) (digits : Nat)
  deriving DecidableEq

/-- One entry of `directions` in a route response. -/
structure DirectionStep where
  direction : String
  road_name : String
  distance : Rat
  next_intersection : String
  traffic_status : String
  deriving DecidableEq

/-- A rendered `direction-step` element. -/
structure StepElement where
  stepNumber : Nat
  direction : String
  road_name : String
  distance : Text
  next_intersection : String
  trafficClass : String
  traffic_status : String
  deriving DecidableEq

/-- A child of the `area-results` container. -/
inductive AreaElement where
  | emptyMessage
  | resultItem (node : Node)
  | moreMessage (count : Nat)
  deriving DecidableEq

/-- A `start-results` / `end-results` container: its items and its `style.display`. -/
structure ResultList where
  items : List Node
  display : String
  deriving DecidableEq

/-- The part of the page the script reads and writes. -/
structure Dom where
  selectedStartDisplay : String
  selectedStartName : String
  selectedEndDisplay : String
  selectedEndName : String
  startLocationValue : String
  endLocationValue : String
  startResults : ResultList
  endResults : ResultList
  algorithmToggle : Bool
  findRouteText : String
  findRouteDisabled : Bool
  routeInfoHidden : Bool
  routeTime : Text
  routeDistance : Text
  directions : List StepElement
  areaResults : List AreaElement
  updateTrafficText : String
  updateTrafficDisabled : Bool
  lastUpdate : String
  cityName : String
  deriving DecidableEq

/-- A request that has been sent and whose response has not arrived; a geocode
request remembers the `type` its continuation closes over. -/
inductive Request where
  | mapData
  | geocode (location : String) (type : Slot)
  | route (start_node end_node : Option NodeId) (algorithm : String)
  | exploreArea (lat lon radius : Rat)
  | trafficUpdate
  deriving DecidableEq

/-- The whole state of the page. -/
structure State where
  mapCenter : Rat × Rat
  layers : List Layer
  nextLayer : Nat
  startMarker : Option Nat
  endMarker : Option Nat
  routeLine : Option Nat
  selectedStartNode : Option NodeId
  selectedEndNode : Option NodeId
  dom : Dom
  pending : List Request
  alerts : List String
  deriving DecidableEq

/-- Body of a successful `/api/route` response. -/
structure RouteData where
  route_points : List (Rat × Rat)
  distance_km : Rat
  time_minutes : Rat
  directions : List DirectionStep
  deriving DecidableEq

/-- Outcome of a `/api/route` request: route data, a payload with an `error`
field, or a transport failure (the promise rejects). -/
inductive RouteResponse where
  | data (d : RouteData)
  | error (msg : String)
  | failure
  deriving DecidableEq

/-- Outcome of a `/api/traffic/update` request: `{}`, a payload with an `error`
field, or a transport failure. -/
inductive TrafficResponse where
  | ok
  | error (msg : String)
  | failure
  deriving DecidableEq

/-! ## Primitives -/

/-- The call `alert(msg)`. -/
def alert (msg : String) (s : State) : State :=
  { s with alerts := s.alerts ++ [msg] }

/-- The call `map.removeLayer(l)`. -/
def removeLayer (l : Nat) (s : State) : State :=
  { s with layers := s.layers.filter (fun x => x.id != l) }

/-- Creation of a Leaflet object followed by `.addTo(map)`; its identity is the old `nextLayer`. -/
def addLayer (k : LayerKind) (s : State) : State :=
  { s with layers := s.layers ++ [⟨s.nextLayer, k⟩], nextLayer := s.nextLayer + 1 }

/-- The guarded removal `if (v) { map.removeLayer(v); }`. -/
def removeIfSet (v : Option Nat) (s : State) : State :=
  match v with
  | some l => removeLayer l s
  | none => s

/-! ## Selection -/

/-- The function `selectNode(node, type)`. -/
def selectNode (node : Node) (type : Slot) (s : State) : State :=
  match type with
  | .start =>
    let s1 := { s with
      selectedStartNode := some node.node_id
      dom := { s.dom with selectedStartDisplay := "flex", selectedStartName := node.description } }
    let s2 := removeIfSet s1.startMarker s1
    let s3 := { addLayer (.marker node.lat node.lon startColor) s2 with startMarker := some s2.nextLayer }
    { s3 with dom := { s3.dom with startLocationValue := "" } }
  | .finish =>
    let s1 := { s with
      selectedEndNode := some node.node_id
      dom := { s.dom with selectedEndDisplay := "flex", selectedEndName := node.description } }
    let s2 := removeIfSet s1.endMarker s1
    let s3 := { addLayer (.marker node.lat node.lon endColor) s2 with endMarker := some s2.nextLayer }
    { s3 with dom := { s3.dom with endLocationValue := "" } }

/-- The function `hideRouteInfo()`. -/
def hideRouteInfo (s : State) : State :=
  { s with dom := { s.dom with routeInfoHidden := true } }

/-- The function `clearSelectedLocation(type)`. -/
def clearSelectedLocation (type : Slot) (s : State) : State :=
  let s1 : State :=
    match type with
    | .start =>
      let a := { s with
        selectedStartNode := none
        dom := { s.dom with selectedStartDisplay := "none" } }
      match a.startMarker with
      | some m => { removeLayer m a with startMarker := none }
      | none => a
    | .finish =>
      let a := { s with
        selectedEndNode := none
        dom := { s.dom with selectedEndDisplay := "none" } }
      match a.endMarker with
      | some m => { removeLayer m a with endMarker := none }
      | none => a
  if !truthy s1.selectedStartNode || !truthy s1.selectedEndNode then
    let s2 := hideRouteInfo s1
    match s2.routeLine with
    | some r => { removeLayer r s2 with routeLine := none }
    | none => s2
  else s1

/-! ## Route -/

/-- The function `findRoute()` up to and including the `fetch` call. -/
def findRoute (s : State) : State :=
  if !truthy s.selectedStartNode || !truthy s.selectedEndNode then
    alert "Please select both starting point and destination." s
  else
    let algorithm := if s.dom.algorithmToggle then "a_star" else "dijkstra"
    { s with
      dom := { s.dom with findRouteText := "Finding Route...", findRouteDisabled := true }
      pending := s.pending ++ [.route s.selectedStartNode s.selectedEndNode algorithm] }

/-- The function `displayRoute(routeData)` up to its last statement, the call
`map.fitBounds(routeLine.getBounds(), ...)`. -/
def displayRoute (routeData : RouteData) (s : State) : State :=
  let s1 := removeIfSet s.routeLine s
  { addLayer (.polyline routeData.route_points) s1 with routeLine := some s1.nextLayer }

/-- Whether the last statement of `displayRoute` throws: the bounds of a line
without points are not valid, and `map.fitBounds` throws on them. -/
def fitBoundsThrows (routeData : RouteData) : Bool :=
  routeData.route_points.isEmpty

/-- The badge class chosen in `showRouteInfo` for a `traffic_status`. -/
def trafficClass (traffic_status : String) : String :=
  if traffic_status = "moderate traffic" then "traffic-moderate"
  else if traffic_status = "heavy traffic" then "traffic-heavy"
  else "traffic-light"

/-- The `forEach((step, index) => ...)` of `showRouteInfo`, from `index` on. -/
def renderSteps (index : Nat) : List DirectionStep → List StepElement
  | [] => []
  | step :: rest =>
    { stepNumber := index + 1
      direction := step.direction
      road_name := step.road_name
      distance := .toFixed step.distance 0
      next_intersection := step.next_intersection
      trafficClass := trafficClass step.traffic_status
      traffic_status := step.traffic_status } :: renderSteps (index + 1) rest

/-- The function `showRouteInfo(routeData)`. -/
def showRouteInfo (routeData : RouteData) (s : State) : State :=
  { s with dom := { s.dom with
      routeTime := .toFixed routeData.time_minutes 1
      routeDistance := .toFixed routeData.distance_km 2
      directions := renderSteps 0 routeData.directions
      routeInfoHidden := false } }

/-- The two statements that put the find-route button back. -/
def resetFindRoute (s : State) : State :=
  { s with dom := { s.dom with findRouteText := "Find Best Route", findRouteDisabled := false } }

/-- The `.catch` continuation of `findRoute`. -/
def routeCatch (s : State) : State :=
  alert "Error finding route. Please try again." (resetFindRoute s)

/-- The continuations of the `fetch` in `findRoute`, run on a response.  A payload
whose `error` is falsy goes on to `displayRoute`, which takes the old line off the
map and then throws on the missing `route_points`, so `.catch` runs.  On route
data without points `displayRoute` throws in its last statement, after the new
line is on the map, so `showRouteInfo` is skipped and `.catch` runs. -/
def onRouteResponse (r : RouteResponse) (s : State) : State :=
  match r with
  | .failure => routeCatch s
  | .error msg =>
    let s1 := resetFindRoute s
    if msg ≠ "" then alert msg s1
    else routeCatch (removeIfSet s1.routeLine s1)
  | .data d =>
    let s1 := resetFindRoute s
    let s2 := displayRoute d s1
    if fitBoundsThrows d then routeCatch s2 else showRouteInfo d s2

/-- Arrival of the response to the `i`-th pending request, a route request. -/
def routeResponse (i : Nat) (r : RouteResponse) (s : State) : State :=
  match s.pending[i]? with
  | some (.route _ _ _) => onRouteResponse r { s with pending := s.pending.eraseIdx i }
  | _ => s

/-! ## Area exploration -/

/-- The query point computed by the `switch` of `exploreArea`. -/
def exploreQuery (mapCenter : Rat × Rat) (direction : String) : Rat × Rat :=
  let lat := mapCenter.1
  let lon := mapCenter.2
  let offset : Rat := 1 / 100
  if direction = "N" then (lat + offset, lon)
  else if direction = "S" then (lat - offset, lon)
  else if direction = "E" then (lat, lon + offset)
  else if direction = "W" then (lat, lon - offset)
  else if direction = "NE" then (lat + offset, lon + offset)
  else if direction = "NW" then (lat + offset, lon - offset)
  else if direction = "SE" then (lat - offset, lon + offset)
  else if direction = "SW" then (lat - offset, lon - offset)
  else (lat, lon)

/-- The function `exploreArea(direction)` up to and including the `fetch` call. -/
def exploreArea (direction : String) (s : State) : State :=
  let q := exploreQuery s.mapCenter direction
  { s with pending := s.pending ++ [.exploreArea q.1 q.2 (1 / 100)] }

/-- The children `showAreaResults(nodes)` leaves in the `area-results` container. -/
def areaElements (nodes : List Node) : List AreaElement :=
  if nodes.length = 0 then [.emptyMessage]
  else
    let nodesToShow := nodes.take 20
    nodesToShow.map .resultItem ++
      (if nodes.length > 20 then [.moreMessage (nodes.length - 20)] else [])

/-- The function `showAreaResults(nodes)`. -/
def showAreaResults (nodes : List Node) (s : State) : State :=
  { s with dom := { s.dom with areaResults := areaElements nodes } }

/-- The function `selectNodeFromExploration(node, type)`. -/
def selectNodeFromExploration (node : Node) (type : Slot) (s : State) : State :=
  selectNode
    { node_id := node.node_id
      description := node.description
      lat := node.lat
      lon := node.lon
      distance := none } type s

/-! ## Traffic -/

/-- The function `updateTraffic()` up to and including the `fetch` call. -/
def updateTraffic (s : State) : State :=
  { s with
    dom := { s.dom with updateTrafficText := "Updating...", updateTrafficDisabled := true }
    pending := s.pending ++ [.trafficUpdate] }

/-- The two statements that put the update-traffic button back. -/
def resetUpdateTraffic (s : State) : State :=
  { s with dom := { s.dom with updateTrafficText := "Update Traffic Now", updateTrafficDisabled := false } }

/-- The rest of the `.then` continuation of `updateTraffic` once `data.error` was
falsy; `now` is the text of `formatDateTime(new Date())`. -/
def trafficUpdated (now : String) (s : State) : State :=
  let s1 := { s with dom := { s.dom with lastUpdate := now } }
  let s2 := alert "Traffic data updated successfully!" s1
  if truthy s2.selectedStartNode && truthy s2.selectedEndNode then findRoute s2 else s2

/-- The continuations of the `fetch` in `updateTraffic`, run on a response. -/
def onTrafficResponse (now : String) (r : TrafficResponse) (s : State) : State :=
  match r with
  | .failure => alert "Error updating traffic. Please try again." (resetUpdateTraffic s)
  | .error msg =>
    let s1 := resetUpdateTraffic s
    if msg ≠ "" then alert msg s1 else trafficUpdated now s1
  | .ok => trafficUpdated now (resetUpdateTraffic s)

/-- Arrival of the response to the `i`-th pending request, a traffic update. -/
def trafficResponse (i : Nat) (now : String) (r : TrafficResponse) (s : State) : State :=
  match s.pending[i]? with
  | some .trafficUpdate => onTrafficResponse now r { s with pending := s.pending.eraseIdx i }
  | _ => s

/-! ## Search -/

/-- Body of a successful `/api/geocode` response. -/
structure GeocodeData where
  coordinates : Rat × Rat
  nearest_nodes : List Node
  deriving DecidableEq

/-- Outcome of a `/api/geocode` request: coordinates with the nearest nodes, a
payload with an `error` field, or a transport failure. -/
inductive GeocodeResponse where
  | data (d : GeocodeData)
  | error (msg : String)
  | failure
  deriving DecidableEq

/-- The container `start-results` or `end-results`. -/
def resultsOf (type : Slot) (s : State) : ResultList :=
  match type with
  | .start => s.dom.startResults
  | .finish => s.dom.endResults

/-- Assignment to the container `start-results` or `end-results`. -/
def setResults (type : Slot) (r : ResultList) (s : State) : State :=
  match type with
  | .start => { s with dom := { s.dom with startResults := r } }
  | .finish => { s with dom := { s.dom with endResults := r } }

/-- The first statement of `showSearchResults`: `resultsContainer.innerHTML = ''`. -/
def clearResultItems (type : Slot) (s : State) : State :=
  setResults type { resultsOf type s with items := [] } s

/-- The function `showSearchResults(nodes, type)`; an item is kept as the node it
shows and selects on a click. -/
def showSearchResults (nodes : List Node) (type : Slot) (s : State) : State :=
  let s1 := clearResultItems type s
  if nodes.length = 0 then
    setResults type { resultsOf type s1 with display := "none" } s1
  else
    setResults type { items := (resultsOf type s1).items ++ nodes, display := "block" } s1

/-- The click handler of a result item made by `showSearchResults(nodes, type)`. -/
def pickResult (node : Node) (type : Slot) (s : State) : State :=
  let s1 := selectNode node type s
  setResults type { resultsOf type s1 with display := "none" } s1

/-- The function `searchLocation(location, type)` up to and including the `fetch` call. -/
def searchLocation (location : String) (type : Slot) (s : State) : State :=
  { s with pending := s.pending ++ [.geocode location type] }

/-- The `.catch` continuation of `searchLocation`. -/
def geocodeCatch (type : Slot) (s : State) : State :=
  alert "Error searching for location. Please try again." (showSearchResults [] type s)

/-- The continuations of the `fetch` in `searchLocation`, run on a response.  A
payload whose `error` is falsy goes on to `showSearchResults(data.nearest_nodes,
type)`, which empties the container and then throws on the missing list, so
`.catch` runs.  On success the temporary marker is put on the map. -/
def onGeocodeResponse (type : Slot) (r : GeocodeResponse) (s : State) : State :=
  match r with
  | .failure => geocodeCatch type s
  | .error msg =>
    if msg ≠ "" then alert msg (showSearchResults [] type s)
    else geocodeCatch type (clearResultItems type s)
  | .data d =>
    let s1 := showSearchResults d.nearest_nodes type s
    addLayer (.circleMarker d.coordinates.1 d.coordinates.2) s1

/-- Arrival of the response to the `i`-th pending request, a geocode request. -/
def geocodeResponse (i : Nat) (r : GeocodeResponse) (s : State) : State :=
  match s.pending[i]? with
  | some (.geocode _ type) => onGeocodeResponse type r { s with pending := s.pending.eraseIdx i }
  | _ => s

/-- The callback of a `setTimeout` that takes a temporary overlay off the map. -/
def expireOverlay (l : Nat) (s : State) : State :=
  removeLayer l s

/-! ## Runs -/

/-- The events of the route life cycle. -/
inductive Action where
  | selectNode (node : Node) (type : Slot)
  | clearSelectedLocation (type : Slot)
  | findRoute
  | routeResponse (i : Nat) (r : RouteResponse)
  deriving DecidableEq

/-- One event applied to a state. -/
def step (a : Action) (s : State) : State :=
  match a with
  | .selectNode node type => selectNode node type s
  | .clearSelectedLocation type => clearSelectedLocation type s
  | .findRoute => findRoute s
  | .routeResponse i r => routeResponse i r s

/-- A sequence of events applied in order. -/
def run (acts : List Action) (s : State) : State :=
  acts.foldl (fun st a => step a st) s

/-- The two selection events. -/
inductive SelAction where
  | selectNode (node : Node) (type : Slot)
  | clearSelectedLocation (type : Slot)
  deriving DecidableEq

/-- A selection event as an event. -/
def SelAction.toAction : SelAction → Action
  | .selectNode node type => .selectNode node type
  | .clearSelectedLocation type => .clearSelectedLocation type

/-- The state when the `DOMContentLoaded` handler returns, on a page whose
elements are as in `dom0`: the tile layer is on the map and the map-data request
is out. -/
def init (dom0 : Dom) : State :=
  { mapCenter := (334255 / 10000, -1119400 / 10000)
    layers := [⟨0, .tileLayer⟩]
    nextLayer := 1
    startMarker := none
    endMarker := none
    routeLine := none
    selectedStartNode := none
    selectedEndNode := none
    dom := dom0
    pending := [.mapData]
    alerts := [] }

/-- Modelled from the spec: the page as it is served (the markup is not among the
sources): nothing selected or listed, the route panel hidden (route life cycle
starts in `NoRoute`), both buttons idle with the labels the script restores. -/
def idleDom : Dom :=
  { selectedStartDisplay := "none"
    selectedStartName := ""
    selectedEndDisplay := "none"
    selectedEndName := ""
    startLocationValue := ""
    endLocationValue := ""
    startResults := ⟨[], "none"⟩
    endResults := ⟨[], "none"⟩
    algorithmToggle := false
    findRouteText := "Find Best Route"
    findRouteDisabled := false
    routeInfoHidden := true
    routeTime := .lit ""
    routeDistance := .lit ""
    directions := []
    areaResults := []
    updateTrafficText := "Update Traffic Now"
    updateTrafficDisabled := false
    lastUpdate := ""
    cityName := "" }

/-! ## Observations -/

/-- The selected identifier of a slot. -/
def selected (t : Slot) (s : State) : Option NodeId :=
  match t with
  | .start => s.selectedStartNode
  | .finish => s.selectedEndNode

/-- The marker variable of a slot. -/
def markerRef (t : Slot) (s : State) : Option Nat :=
  match t with
  | .start => s.startMarker
  | .finish => s.endMarker

/-- The other slot. -/
def Slot.other : Slot → Slot
  | .start => .finish
  | .finish => .start

/-- The icon colour `selectNode` gives the marker of a slot. -/
def slotColor : Slot → String
  | .start => startColor
  | .finish => endColor

/-- Whether a layer is a marker drawn for slot `t`. -/
def isSlotMarker (t : Slot) (l : Layer) : Bool :=
  match l.kind with
  | .marker _ _ c => c == slotColor t
  | _ => false

/-- The markers of slot `t` that are on the map. -/
def slotMarkers (t : Slot) (s : State) : List Layer :=
  s.layers.filter (isSlotMarker t)

/-- Whether the Leaflet object `l` is on the map. -/
def onMap (l : Nat) (s : State) : Bool :=
  s.layers.any (fun x => x.id == l)

/-- The route polylines that are on the map. -/
def polylines (s : State) : List Layer :=
  s.layers.filter (fun l => match l.kind with | .polyline _ => true | _ => false)

/-- The nodes of the selectable items among the children of `area-results`, in order. -/
def areaItems (es : List AreaElement) : List Node :=
  es.filterMap (fun e => match e with | .resultItem node => some node | _ => none)

/-- The route requests among the pending requests. -/
def routeRequests (s : State) : List Request :=
  s.pending.filter (fun r => match r with | .route _ _ _ => true | _ => false)

/-! ## The marker invariant -/

/-- The markers of slot `t` among the layers `L` agree with the marker variable
`ref`: none when it is unset, exactly the referenced one when it is set. -/
def MarkerOK (t : Slot) (ref : Option Nat) (L : List Layer) : Prop :=
  match ref with
  | none => L.filter (isSlotMarker t) = []
  | some m => ∃ lat lon, L.filter (isSlotMarker t) = [⟨m, .marker lat lon (slotColor t)⟩]

/-- Slot `t` is consistent: it is selected exactly when its marker variable is
set, and the map agrees with the marker variable. -/
def SlotInv (t : Slot) (s : State) : Prop :=
  (selected t s).isSome = (markerRef t s).isSome ∧ MarkerOK t (markerRef t s) s.layers

/-- The invariant of the page: identities on the map are below `nextLayer`, the
two marker variables and `routeLine` name different objects, and both slots are
consistent. -/
def Inv (s : State) : Prop :=
  (∀ l ∈ s.layers, l.id < s.nextLayer) ∧
  (∀ a b, s.startMarker = some a → s.endMarker = some b → a ≠ b) ∧
  (∀ r, s.routeLine = some r →
    r < s.nextLayer ∧ ∀ l ∈ s.layers, l.id = r → ∀ t, isSlotMarker t l = false) ∧
  ∀ t, SlotInv t s

/-! ## Sample data -/

/-- A node with identifier 12. -/
def node12 : Node := ⟨.num 12, 334255 / 10000, -1119400 / 10000, "Mill Ave & 5th St", none⟩

/-- A node with identifier 47. -/
def node47 : Node := ⟨.num 47, 334300 / 10000, -1119300 / 10000, "Rural Rd & University Dr", none⟩

/-- A node with identifier 5. -/
def node5 : Node := ⟨.num 5, 334100 / 10000, -1119500 / 10000, "Apache Blvd & McClintock Dr", none⟩

/-- A node with the numeric identifier 0. -/
def node0 : Node := ⟨.num 0, 334200 / 10000, -1119450 / 10000, "Priest Dr & Rio Salado Pkwy", none⟩

/-- The route response of the example: 3.42 km, 7.1 minutes, one step in moderate traffic. -/
def sampleRoute : RouteData :=
  { route_points := [(334255 / 10000, -1119400 / 10000), (334300 / 10000, -1119300 / 10000)]
    distance_km := 342 / 100
    time_minutes := 71 / 10
    directions := [⟨"Turn right", "Mill Ave", 120, "5th St", "moderate traffic"⟩] }

/-- The page after both slots were selected (12 and 47). -/
def bothSelected : State :=
  run [.selectNode node12 .start, .selectNode node47 .finish] (init idleDom)

/-- The page with the route for (12, 47) displayed. -/
def routeShown : State :=
  run [.findRoute, .routeResponse 1 (.data sampleRoute)] bothSelected


/-- The page after a route request went out for (12, 47) and the end slot was
then changed to node 5; the request is still pending. -/
def staleState : State :=
  run [.findRoute, .selectNode node5 .finish] bothSelected

/-- Both slots are selected, a route request goes out, the start slot is cleared,
and the response arrives. -/
def lateActs : List Action :=
  [.selectNode node12 .start, .selectNode node47 .finish, .findRoute,
    .clearSelectedLocation .start, .routeResponse 1 (.data sampleRoute)]

/-- The page after a route request went out for (12, 47), the start slot was
cleared, and the response then arrived. -/
def lateState : State :=
  run lateActs (init idleDom)

/-- The page after the node with identifier 0 was selected as start and node 47 as end. -/
def zeroSelected : State :=
  run [.selectNode node0 .start, .selectNode node47 .finish] (init idleDom)

/-- The page with the route for (12, 47) displayed and the start slot then changed to node 0. -/
def zeroRouteShown : State :=
  selectNode node0 .start routeShown

/-- A geocode result near node 12, 80 m away. -/
def near12 : Node :=
  ⟨.num 12, 334255 / 10000, -1119400 / 10000, "Mill Ave & 5th St", some (8 / 100)⟩

/-- A geocode result near node 5, 350 m away. -/
def near5 : Node :=
  ⟨.num 5, 334100 / 10000, -1119500 / 10000, "Apache Blvd & McClintock Dr", some (35 / 100)⟩

/-- A successful geocode response with two candidates. -/
def sampleGeocode : GeocodeData :=
  { coordinates := (334250 / 10000, -1119410 / 10000)
    nearest_nodes := [near12, near5] }

/-- The page with the route for (12, 47) displayed, the end list showing two
candidates, and a search for the start slot in flight. -/
def searching : State :=
  searchLocation "Mill Avenue" .start
    (showSearchResults [near5, near12] .finish routeShown)

/-! # Lemmas

## Layer lists -/

theorem filter_removed (p : Layer → Bool) (i : Nat) (L : List Layer) :
    (L.filter (fun x => x.id != i)).filter p = (L.filter p).filter (fun x => x.id != i) := by
  induction L with
  | nil => rfl
  | cons a L ih =>
    by_cases h1 : a.id = i <;> by_cases h2 : p a = true <;> simp [List.filter_cons, h1, h2, ih]

theorem isSlotMarker_marker (t u : Slot) (n : Nat) (lat lon : Rat) :
    isSlotMarker t ⟨n, .marker lat lon (slotColor u)⟩ = decide (u = t) := by
  cases t <;> cases u <;> simp [isSlotMarker, slotColor, startColor, endColor]

theorem MarkerOK.mem {t : Slot} {m : Nat} {L : List Layer} (h : MarkerOK t (some m) L) :
    ∃ l ∈ L, l.id = m ∧ isSlotMarker t l = true := by
  obtain ⟨lat, lon, e⟩ := h
  have hx : (⟨m, .marker lat lon (slotColor t)⟩ : Layer) ∈ L.filter (isSlotMarker t) := by
    rw [e]; exact List.mem_singleton.2 rfl
  exact ⟨_, (List.mem_filter.1 hx).1, rfl, (List.mem_filter.1 hx).2⟩

theorem MarkerOK.filter_self {t : Slot} {ref : Option Nat} {L : List Layer}
    (h : MarkerOK t ref L) (m : Nat) (hm : ref = some m) :
    MarkerOK t none (L.filter (fun x => x.id != m)) := by
  subst hm
  obtain ⟨lat, lon, e⟩ := h
  show ((L.filter (fun x => x.id != m)).filter (isSlotMarker t)) = []
  rw [filter_removed, e]
  simp

theorem MarkerOK.filter_ne {t : Slot} {ref : Option Nat} {L : List Layer}
    (h : MarkerOK t ref L) (i : Nat) (hi : ref ≠ some i) :
    MarkerOK t ref (L.filter (fun x => x.id != i)) := by
  cases ref with
  | none =>
    show ((L.filter (fun x => x.id != i)).filter (isSlotMarker t)) = []
    have e : L.filter (isSlotMarker t) = [] := h
    rw [filter_removed, e]; rfl
  | some b =>
    obtain ⟨lat, lon, e⟩ := h
    refine ⟨lat, lon, ?_⟩
    have hb : b ≠ i := fun hb => hi (by rw [hb])
    rw [filter_removed, e]
    simp [hb]

theorem MarkerOK.append_self {t : Slot} {L : List Layer} (h : MarkerOK t none L)
    (n : Nat) (lat lon : Rat) :
    MarkerOK t (some n) (L ++ [⟨n, .marker lat lon (slotColor t)⟩]) := by
  have e : L.filter (isSlotMarker t) = [] := h
  refine ⟨lat, lon, ?_⟩
  rw [List.filter_append, e]
  simp [List.filter_cons, isSlotMarker_marker]

theorem MarkerOK.append_other {t : Slot} {ref : Option Nat} {L : List Layer}
    (h : MarkerOK t ref L) (x : Layer) (hx : isSlotMarker t x = false) :
    MarkerOK t ref (L ++ [x]) := by
  have e : (L ++ [x]).filter (isSlotMarker t) = L.filter (isSlotMarker t) := by
    rw [List.filter_append]; simp [List.filter_cons, hx]
  cases ref with
  | none => show (L ++ [x]).filter (isSlotMarker t) = []; rw [e]; exact h
  | some b =>
    obtain ⟨lat, lon, e2⟩ := h
    exact ⟨lat, lon, by rw [e, e2]⟩

theorem isSlotMarker_polyline (t : Slot) (n : Nat) (pts : List (Rat × Rat)) :
    isSlotMarker t ⟨n, .polyline pts⟩ = false := rfl


/-! ## Projections of the selection functions -/

theorem removeIfSet_layers_sub (v : Option Nat) (s : State) :
    ∀ l ∈ (removeIfSet v s).layers, l ∈ s.layers := by
  intro l hl
  cases v with
  | none => exact hl
  | some m => exact (List.mem_filter.1 hl).1

theorem selectNode_layers (node : Node) (t : Slot) (s : State) :
    (selectNode node t s).layers =
      (removeIfSet (markerRef t s) s).layers ++
        [⟨s.nextLayer, .marker node.lat node.lon (slotColor t)⟩] := by
  cases t
  · cases hm : s.startMarker <;>
      simp [selectNode, removeIfSet, removeLayer, addLayer, hm, slotColor, markerRef]
  · cases hm : s.endMarker <;>
      simp [selectNode, removeIfSet, removeLayer, addLayer, hm, slotColor, markerRef]

theorem selectNode_nextLayer (node : Node) (t : Slot) (s : State) :
    (selectNode node t s).nextLayer = s.nextLayer + 1 := by
  cases t
  · cases hm : s.startMarker <;> simp [selectNode, removeIfSet, removeLayer, addLayer, hm]
  · cases hm : s.endMarker <;> simp [selectNode, removeIfSet, removeLayer, addLayer, hm]

theorem selectNode_markerRef_self (node : Node) (t : Slot) (s : State) :
    markerRef t (selectNode node t s) = some s.nextLayer := by
  cases t
  · cases hm : s.startMarker <;>
      simp [selectNode, removeIfSet, removeLayer, addLayer, hm, markerRef]
  · cases hm : s.endMarker <;>
      simp [selectNode, removeIfSet, removeLayer, addLayer, hm, markerRef]

theorem selectNode_markerRef_other (node : Node) (t : Slot) (s : State) :
    markerRef t.other (selectNode node t s) = markerRef t.other s := by
  cases t
  · cases hm : s.startMarker <;>
      simp [selectNode, removeIfSet, removeLayer, addLayer, hm, markerRef, Slot.other]
  · cases hm : s.endMarker <;>
      simp [selectNode, removeIfSet, removeLayer, addLayer, hm, markerRef, Slot.other]

theorem selectNode_selected_self (node : Node) (t : Slot) (s : State) :
    selected t (selectNode node t s) = some node.node_id := by
  cases t
  · cases hm : s.startMarker <;>
      simp [selectNode, removeIfSet, removeLayer, addLayer, hm, selected]
  · cases hm : s.endMarker <;>
      simp [selectNode, removeIfSet, removeLayer, addLayer, hm, selected]

theorem selectNode_selected_other (node : Node) (t : Slot) (s : State) :
    selected t.other (selectNode node t s) = selected t.other s := by
  cases t
  · cases hm : s.startMarker <;>
      simp [selectNode, removeIfSet, removeLayer, addLayer, hm, selected, Slot.other]
  · cases hm : s.endMarker <;>
      simp [selectNode, removeIfSet, removeLayer, addLayer, hm, selected, Slot.other]

theorem selectNode_routeLine (node : Node) (t : Slot) (s : State) :
    (selectNode node t s).routeLine = s.routeLine := by
  cases t
  · cases hm : s.startMarker <;> simp [selectNode, removeIfSet, removeLayer, addLayer, hm]
  · cases hm : s.endMarker <;> simp [selectNode, removeIfSet, removeLayer, addLayer, hm]

theorem selectNode_routeInfoHidden (node : Node) (t : Slot) (s : State) :
    (selectNode node t s).dom.routeInfoHidden = s.dom.routeInfoHidden := by
  cases t
  · cases hm : s.startMarker <;> simp [selectNode, removeIfSet, removeLayer, addLayer, hm]
  · cases hm : s.endMarker <;> simp [selectNode, removeIfSet, removeLayer, addLayer, hm]

theorem slot_cases (t u : Slot) : u = t ∨ u = t.other := by
  cases t <;> cases u <;> simp [Slot.other]

theorem other_ne (t : Slot) : t.other ≠ t := by
  cases t <;> simp [Slot.other]

/-! ## Preservation -/

theorem Inv.ref_lt {s : State} (h : Inv s) (t : Slot) {m : Nat} (hm : markerRef t s = some m) :
    m < s.nextLayer := by
  obtain ⟨h1, _, _, h4⟩ := h
  have hk : MarkerOK t (some m) s.layers := by
    have := (h4 t).2; rwa [hm] at this
  obtain ⟨l, hl, hid, _⟩ := hk.mem
  exact hid ▸ h1 l hl

theorem Inv.ref_ne_route {s : State} (h : Inv s) (t : Slot) {r : Nat}
    (hr : s.routeLine = some r) : markerRef t s ≠ some r := by
  intro hm
  obtain ⟨_, _, h3, h4⟩ := h
  have hk : MarkerOK t (some r) s.layers := by
    have := (h4 t).2; rwa [hm] at this
  obtain ⟨l, hl, hid, hmk⟩ := hk.mem
  have := (h3 r hr).2 l hl hid t
  rw [this] at hmk
  exact absurd hmk (by decide)

theorem Inv.ref_ne_other {s : State} (h : Inv s) (t : Slot) {m : Nat}
    (hm : markerRef t s = some m) : markerRef t.other s ≠ some m := by
  intro hb
  cases t
  · exact h.2.1 m m hm hb rfl
  · exact h.2.1 m m hb hm rfl

theorem init_inv (dom0 : Dom) : Inv (init dom0) := by
  refine ⟨?_, ?_, ?_, ?_⟩
  · intro l hl
    simp [init] at hl ⊢
    subst hl; decide
  · intro a b ha; simp [init] at ha
  · intro r hr; simp [init] at hr
  · intro t
    refine ⟨by cases t <;> rfl, ?_⟩
    cases t
    · show List.filter (isSlotMarker .start) [⟨0, .tileLayer⟩] = []; rfl
    · show List.filter (isSlotMarker .finish) [⟨0, .tileLayer⟩] = []; rfl

theorem selectNode_inv (node : Node) (t : Slot) (s : State) (h : Inv s) :
    Inv (selectNode node t s) := by
  have hlt := fun u m (hm : markerRef u s = some m) => h.ref_lt u hm
  have hno := fun m (hm : markerRef t s = some m) => h.ref_ne_other t hm
  obtain ⟨h1, h2, h3, h4⟩ := h
  have hL := selectNode_layers node t s
  have hn := selectNode_nextLayer node t s
  have hdrop := removeIfSet_layers_sub (markerRef t s) s
  refine ⟨?_, ?_, ?_, ?_⟩
  · intro l hl
    rw [hL] at hl; rw [hn]
    rcases List.mem_append.1 hl with hl | hl
    · have := h1 l (hdrop l hl); omega
    · rw [List.mem_singleton.1 hl]; exact Nat.lt_succ_self _
  · intro a b ha hb
    cases t
    · have e1 := selectNode_markerRef_self node .start s
      have e2 := selectNode_markerRef_other node .start s
      simp only [markerRef, Slot.other] at e1 e2
      rw [e1] at ha; rw [e2] at hb
      have := hlt .finish b hb
      cases ha; omega
    · have e1 := selectNode_markerRef_self node .finish s
      have e2 := selectNode_markerRef_other node .finish s
      simp only [markerRef, Slot.other] at e1 e2
      rw [e1] at hb; rw [e2] at ha
      have := hlt .start a ha
      cases hb; omega
  · intro r hr0
    rw [selectNode_routeLine] at hr0
    obtain ⟨hlt, hk⟩ := h3 r hr0
    rw [hn, hL]
    refine ⟨by omega, ?_⟩
    intro l hl hid u
    rcases List.mem_append.1 hl with hl | hl
    · exact hk l (hdrop l hl) hid u
    · rw [List.mem_singleton.1 hl] at hid; simp at hid; omega
  · intro u
    rcases slot_cases t u with hu | hu
    · subst hu
      refine ⟨?_, ?_⟩
      · rw [selectNode_selected_self, selectNode_markerRef_self]; rfl
      · rw [selectNode_markerRef_self, hL]
        refine MarkerOK.append_self ?_ _ _ _
        cases hm : markerRef u s with
        | none => have := (h4 u).2; rw [hm] at this; exact this
        | some m => exact MarkerOK.filter_self (h4 u).2 m hm
    · subst hu
      refine ⟨?_, ?_⟩
      · rw [selectNode_selected_other, selectNode_markerRef_other]; exact (h4 _).1
      · rw [selectNode_markerRef_other, hL]
        refine MarkerOK.append_other ?_ _ ?_
        · cases hm : markerRef t s with
          | none => exact (h4 _).2
          | some m => exact MarkerOK.filter_ne (h4 _).2 m (hno m hm)
        · rw [isSlotMarker_marker]; simpa using (other_ne t).symm


theorem clear_layers (t : Slot) (s : State) :
    (clearSelectedLocation t s).layers =
      (removeIfSet s.routeLine (removeIfSet (markerRef t s) s)).layers := by
  cases t
  · cases hm : s.startMarker <;> cases hr : s.routeLine <;>
      simp [clearSelectedLocation, truthy, hideRouteInfo, removeIfSet, removeLayer, hm, hr, markerRef]
  · cases hm : s.endMarker <;> cases hr : s.routeLine <;>
      simp [clearSelectedLocation, truthy, hideRouteInfo, removeIfSet, removeLayer, hm, hr, markerRef]

theorem clear_nextLayer (t : Slot) (s : State) :
    (clearSelectedLocation t s).nextLayer = s.nextLayer := by
  cases t
  · cases hm : s.startMarker <;> cases hr : s.routeLine <;>
      simp [clearSelectedLocation, truthy, hideRouteInfo, removeLayer, hm, hr]
  · cases hm : s.endMarker <;> cases hr : s.routeLine <;>
      simp [clearSelectedLocation, truthy, hideRouteInfo, removeLayer, hm, hr]

theorem clear_markerRef_self (t : Slot) (s : State) :
    markerRef t (clearSelectedLocation t s) = none := by
  cases t
  · cases hm : s.startMarker <;> cases hr : s.routeLine <;>
      simp [clearSelectedLocation, truthy, hideRouteInfo, removeLayer, hm, hr, markerRef]
  · cases hm : s.endMarker <;> cases hr : s.routeLine <;>
      simp [clearSelectedLocation, truthy, hideRouteInfo, removeLayer, hm, hr, markerRef]

theorem clear_markerRef_other (t : Slot) (s : State) :
    markerRef t.other (clearSelectedLocation t s) = markerRef t.other s := by
  cases t
  · cases hm : s.startMarker <;> cases hr : s.routeLine <;>
      simp [clearSelectedLocation, truthy, hideRouteInfo, removeLayer, hm, hr, markerRef, Slot.other]
  · cases hm : s.endMarker <;> cases hr : s.routeLine <;>
      simp [clearSelectedLocation, truthy, hideRouteInfo, removeLayer, hm, hr, markerRef, Slot.other]

theorem clear_selected_self (t : Slot) (s : State) :
    selected t (clearSelectedLocation t s) = none := by
  cases t
  · cases hm : s.startMarker <;> cases hr : s.routeLine <;>
      simp [clearSelectedLocation, truthy, hideRouteInfo, removeLayer, hm, hr, selected]
  · cases hm : s.endMarker <;> cases hr : s.routeLine <;>
      simp [clearSelectedLocation, truthy, hideRouteInfo, removeLayer, hm, hr, selected]

theorem clear_selected_other (t : Slot) (s : State) :
    selected t.other (clearSelectedLocation t s) = selected t.other s := by
  cases t
  · cases hm : s.startMarker <;> cases hr : s.routeLine <;>
      simp [clearSelectedLocation, truthy, hideRouteInfo, removeLayer, hm, hr, selected, Slot.other]
  · cases hm : s.endMarker <;> cases hr : s.routeLine <;>
      simp [clearSelectedLocation, truthy, hideRouteInfo, removeLayer, hm, hr, selected, Slot.other]

theorem clear_routeLine (t : Slot) (s : State) :
    (clearSelectedLocation t s).routeLine = none := by
  cases t
  · cases hm : s.startMarker <;> cases hr : s.routeLine <;>
      simp [clearSelectedLocation, truthy, hideRouteInfo, removeLayer, hm, hr]
  · cases hm : s.endMarker <;> cases hr : s.routeLine <;>
      simp [clearSelectedLocation, truthy, hideRouteInfo, removeLayer, hm, hr]

theorem clear_routeInfoHidden (t : Slot) (s : State) :
    (clearSelectedLocation t s).dom.routeInfoHidden = true := by
  cases t
  · cases hm : s.startMarker <;> cases hr : s.routeLine <;>
      simp [clearSelectedLocation, truthy, hideRouteInfo, removeLayer, hm, hr]
  · cases hm : s.endMarker <;> cases hr : s.routeLine <;>
      simp [clearSelectedLocation, truthy, hideRouteInfo, removeLayer, hm, hr]

theorem MarkerOK.removeIfSet_ne {t : Slot} {ref : Option Nat} {s : State}
    (h : MarkerOK t ref s.layers) (v : Option Nat) (hv : ∀ i, v = some i → ref ≠ some i) :
    MarkerOK t ref (removeIfSet v s).layers := by
  cases v with
  | none => exact h
  | some i => exact MarkerOK.filter_ne h i (hv i rfl)

theorem MarkerOK.removeIfSet_self {t : Slot} {ref : Option Nat} {s : State}
    (h : MarkerOK t ref s.layers) : MarkerOK t none (removeIfSet ref s).layers := by
  cases ref with
  | none => exact h
  | some i => exact MarkerOK.filter_self h i rfl

theorem clearSelectedLocation_inv (t : Slot) (s : State) (h : Inv s) :
    Inv (clearSelectedLocation t s) := by
  have hnr := fun u r (hr : s.routeLine = some r) => h.ref_ne_route u hr
  have hno := fun m (hm : markerRef t s = some m) => h.ref_ne_other t hm
  obtain ⟨h1, h2, h3, h4⟩ := h
  have hL := clear_layers t s
  have hsub : ∀ l ∈ (clearSelectedLocation t s).layers, l ∈ s.layers := by
    intro l hl
    rw [hL] at hl
    exact removeIfSet_layers_sub _ _ _ (removeIfSet_layers_sub _ _ _ hl)
  refine ⟨?_, ?_, ?_, ?_⟩
  · intro l hl
    rw [clear_nextLayer]
    exact h1 l (hsub l hl)
  · intro a b ha hb
    cases t
    · have := clear_markerRef_self .start s
      simp only [markerRef] at this
      rw [this] at ha; cases ha
    · have := clear_markerRef_self .finish s
      simp only [markerRef] at this
      rw [this] at hb; cases hb
  · intro r hr
    rw [clear_routeLine] at hr; cases hr
  · intro u
    rcases slot_cases t u with hu | hu
    · subst hu
      refine ⟨?_, ?_⟩
      · rw [clear_selected_self, clear_markerRef_self]; rfl
      · rw [clear_markerRef_self, hL]
        have hA : MarkerOK u none (removeIfSet (markerRef u s) s).layers :=
          MarkerOK.removeIfSet_self (h4 u).2
        exact MarkerOK.removeIfSet_ne hA _ (fun i _ => by simp)
    · subst hu
      refine ⟨?_, ?_⟩
      · rw [clear_selected_other, clear_markerRef_other]; exact (h4 _).1
      · rw [clear_markerRef_other, hL]
        have hA : MarkerOK t.other (markerRef t.other s) (removeIfSet (markerRef t s) s).layers :=
          MarkerOK.removeIfSet_ne (h4 _).2 _ (fun i hi => hno i hi)
        exact MarkerOK.removeIfSet_ne hA _ (fun i hi => hnr _ i hi)


theorem Inv.congr {s s' : State} (h : Inv s) (hL : s'.layers = s.layers)
    (hn : s'.nextLayer = s.nextLayer) (hsm : s'.startMarker = s.startMarker)
    (hem : s'.endMarker = s.endMarker) (hr : s'.routeLine = s.routeLine)
    (hss : s'.selectedStartNode = s.selectedStartNode)
    (hse : s'.selectedEndNode = s.selectedEndNode) : Inv s' := by
  have hsel : ∀ t, selected t s' = selected t s := by
    intro t; cases t <;> simp [selected, hss, hse]
  have href : ∀ t, markerRef t s' = markerRef t s := by
    intro t; cases t <;> simp [markerRef, hsm, hem]
  obtain ⟨h1, h2, h3, h4⟩ := h
  refine ⟨?_, ?_, ?_, ?_⟩
  · rw [hL, hn]; exact h1
  · rw [hsm, hem]; exact h2
  · rw [hr, hn, hL]; exact h3
  · intro t
    unfold SlotInv
    rw [hsel, href, hL]
    exact h4 t

theorem Inv.dropRoute {s s' : State} (h : Inv s)
    (hL : s'.layers = (removeIfSet s.routeLine s).layers)
    (hn : s'.nextLayer = s.nextLayer) (hsm : s'.startMarker = s.startMarker)
    (hem : s'.endMarker = s.endMarker) (hr : s'.routeLine = s.routeLine)
    (hss : s'.selectedStartNode = s.selectedStartNode)
    (hse : s'.selectedEndNode = s.selectedEndNode) : Inv s' := by
  have hsel : ∀ t, selected t s' = selected t s := by
    intro t; cases t <;> simp [selected, hss, hse]
  have href : ∀ t, markerRef t s' = markerRef t s := by
    intro t; cases t <;> simp [markerRef, hsm, hem]
  have hnr := fun u r (hr : s.routeLine = some r) => h.ref_ne_route u hr
  obtain ⟨h1, h2, h3, h4⟩ := h
  have hsub := removeIfSet_layers_sub s.routeLine s
  refine ⟨?_, ?_, ?_, ?_⟩
  · rw [hL, hn]; exact fun l hl => h1 l (hsub l hl)
  · rw [hsm, hem]; exact h2
  · rw [hr, hn, hL]
    exact fun r hr0 => ⟨(h3 r hr0).1, fun l hl => (h3 r hr0).2 l (hsub l hl)⟩
  · intro t
    unfold SlotInv
    rw [hsel, href, hL]
    exact ⟨(h4 t).1, MarkerOK.removeIfSet_ne (h4 t).2 _ (fun i hi => hnr t i hi)⟩

theorem Inv.drawRoute {s s' : State} (h : Inv s) (pts : List (Rat × Rat))
    (hL : s'.layers = (removeIfSet s.routeLine s).layers ++ [⟨s.nextLayer, .polyline pts⟩])
    (hn : s'.nextLayer = s.nextLayer + 1) (hsm : s'.startMarker = s.startMarker)
    (hem : s'.endMarker = s.endMarker) (hr : s'.routeLine = some s.nextLayer)
    (hss : s'.selectedStartNode = s.selectedStartNode)
    (hse : s'.selectedEndNode = s.selectedEndNode) : Inv s' := by
  have hsel : ∀ t, selected t s' = selected t s := by
    intro t; cases t <;> simp [selected, hss, hse]
  have href : ∀ t, markerRef t s' = markerRef t s := by
    intro t; cases t <;> simp [markerRef, hsm, hem]
  have hnr := fun u r (hr : s.routeLine = some r) => h.ref_ne_route u hr
  obtain ⟨h1, h2, h3, h4⟩ := h
  have hsub := removeIfSet_layers_sub s.routeLine s
  refine ⟨?_, ?_, ?_, ?_⟩
  · intro l hl
    rw [hL] at hl; rw [hn]
    rcases List.mem_append.1 hl with hl | hl
    · have := h1 l (hsub l hl); omega
    · rw [List.mem_singleton.1 hl]; exact Nat.lt_succ_self _
  · rw [hsm, hem]; exact h2
  · intro r hr0
    rw [hr] at hr0
    cases hr0
    rw [hn, hL]
    refine ⟨Nat.lt_succ_self _, ?_⟩
    intro l hl hid u
    rcases List.mem_append.1 hl with hl | hl
    · have := h1 l (hsub l hl); omega
    · rw [List.mem_singleton.1 hl]; rfl
  · intro t
    unfold SlotInv
    rw [hsel, href, hL]
    refine ⟨(h4 t).1, MarkerOK.append_other ?_ _ (isSlotMarker_polyline _ _ _)⟩
    exact MarkerOK.removeIfSet_ne (h4 t).2 _ (fun i hi => hnr t i hi)

theorem findRoute_inv (s : State) (h : Inv s) : Inv (findRoute s) := by
  unfold findRoute
  split
  · exact h.congr rfl rfl rfl rfl rfl rfl rfl
  · exact h.congr rfl rfl rfl rfl rfl rfl rfl

theorem onRouteResponse_inv (r : RouteResponse) (s : State) (h : Inv s) :
    Inv (onRouteResponse r s) := by
  cases r with
  | failure => exact h.congr rfl rfl rfl rfl rfl rfl rfl
  | error msg =>
    by_cases hmsg : msg ≠ ""
    · have e : onRouteResponse (.error msg) s = alert msg (resetFindRoute s) := if_pos hmsg
      rw [e]
      exact h.congr rfl rfl rfl rfl rfl rfl rfl
    · have e : onRouteResponse (.error msg) s =
          routeCatch (removeIfSet s.routeLine (resetFindRoute s)) := if_neg hmsg
      rw [e]
      refine h.dropRoute ?_ ?_ ?_ ?_ ?_ ?_ ?_ <;> cases hr : s.routeLine <;>
        simp [routeCatch, alert, resetFindRoute, removeIfSet, removeLayer, hr]
  | data d =>
    refine h.drawRoute d.route_points ?_ ?_ ?_ ?_ ?_ ?_ ?_ <;> cases hr : s.routeLine <;>
      cases hf : fitBoundsThrows d <;>
      simp [onRouteResponse, showRouteInfo, displayRoute, addLayer, resetFindRoute, removeIfSet,
        removeLayer, routeCatch, alert, hr, hf]

theorem routeResponse_inv (i : Nat) (r : RouteResponse) (s : State) (h : Inv s) :
    Inv (routeResponse i r s) := by
  unfold routeResponse
  split
  · exact onRouteResponse_inv r _ (h.congr rfl rfl rfl rfl rfl rfl rfl)
  · exact h

theorem step_inv (a : Action) (s : State) (h : Inv s) : Inv (step a s) := by
  cases a with
  | selectNode node t => exact selectNode_inv node t s h
  | clearSelectedLocation t => exact clearSelectedLocation_inv t s h
  | findRoute => exact findRoute_inv s h
  | routeResponse i r => exact routeResponse_inv i r s h

theorem run_inv (acts : List Action) (s : State) (h : Inv s) : Inv (run acts s) := by
  induction acts generalizing s with
  | nil => exact h
  | cons a rest ih => exact ih (step a s) (step_inv a s h)


/-! # The claims -/

/-- C1 (evaluated where the code departs from it): with the route for (12, 47)
displayed, `selectNode(node5, 'end')` changes the end slot to 5 and leaves the
route displayed: `routeLine` still names the polyline, the polyline is still on
the map and the route panel is still visible. -/
theorem C1_selectNode_keeps_route :
    routeShown.routeLine = some 3 ∧ onMap 3 routeShown = true ∧
    routeShown.dom.routeInfoHidden = false ∧
    routeShown.selectedEndNode = some (.num 47) ∧
    (selectNode node5 .finish routeShown).selectedEndNode = some (.num 5) ∧
    (selectNode node5 .finish routeShown).routeLine = some 3 ∧
    onMap 3 (selectNode node5 .finish routeShown) = true ∧
    polylines (selectNode node5 .finish routeShown) = [⟨3, .polyline sampleRoute.route_points⟩] ∧
    (selectNode node5 .finish routeShown).dom.routeInfoHidden = false :=
  ⟨rfl, rfl, rfl, rfl, rfl, rfl, rfl, rfl, rfl⟩

/-- C2 as stated fails: a route request goes out for the pair (12, 47), the end
slot is then changed to 5, and the response that arrives afterwards is rendered
all the same (before it no route line and a hidden panel, after it the
polyline of the response on the map and the panel shown). -/
theorem C2_stale_response_rendered :
    staleState.pending[1]? = some (.route (some (.num 12)) (some (.num 47)) "dijkstra") ∧
    staleState.selectedStartNode = some (.num 12) ∧
    staleState.selectedEndNode = some (.num 5) ∧
    staleState.routeLine = none ∧ polylines staleState = [] ∧
    staleState.dom.routeInfoHidden = true ∧
    (routeResponse 1 (.data sampleRoute) staleState).routeLine = some 4 ∧
    polylines (routeResponse 1 (.data sampleRoute) staleState) =
      [⟨4, .polyline sampleRoute.route_points⟩] ∧
    (routeResponse 1 (.data sampleRoute) staleState).dom.routeInfoHidden = false :=
  ⟨rfl, rfl, rfl, rfl, rfl, rfl, rfl, rfl, rfl⟩

/-- C2 as amended: in every state, whatever the current selection is, the
arrival of a successful response to a pending route request (issued for any pair
`a`, `b`) draws it: the response's polyline is put on the map and becomes
`routeLine`, and the selection is left as it is; when the response has at least
one route point the panel shows the response's metrics and directions and is
visible; when it has none, `fitBounds` throws after the line is drawn, the panel
and its contents stay as they were and the generic error is alerted. -/
theorem C2_response_rendered_for_any_selection (s : State) (i : Nat) (d : RouteData)
    (a b : Option NodeId) (alg : String) (h : s.pending[i]? = some (.route a b alg)) :
    (routeResponse i (.data d) s).routeLine = some s.nextLayer ∧
    (⟨s.nextLayer, .polyline d.route_points⟩ : Layer) ∈ (routeResponse i (.data d) s).layers ∧
    (routeResponse i (.data d) s).selectedStartNode = s.selectedStartNode ∧
    (routeResponse i (.data d) s).selectedEndNode = s.selectedEndNode ∧
    (d.route_points ≠ [] →
      (routeResponse i (.data d) s).dom.routeInfoHidden = false ∧
      (routeResponse i (.data d) s).dom.routeTime = .toFixed d.time_minutes 1 ∧
      (routeResponse i (.data d) s).dom.routeDistance = .toFixed d.distance_km 2 ∧
      (routeResponse i (.data d) s).dom.directions = renderSteps 0 d.directions ∧
      (routeResponse i (.data d) s).alerts = s.alerts) ∧
    (d.route_points = [] →
      (routeResponse i (.data d) s).dom.routeInfoHidden = s.dom.routeInfoHidden ∧
      (routeResponse i (.data d) s).dom.routeTime = s.dom.routeTime ∧
      (routeResponse i (.data d) s).dom.routeDistance = s.dom.routeDistance ∧
      (routeResponse i (.data d) s).dom.directions = s.dom.directions ∧
      (routeResponse i (.data d) s).alerts =
        s.alerts ++ ["Error finding route. Please try again."]) := by
  by_cases hp : d.route_points = []
  · have hf : fitBoundsThrows d = true := by simp [fitBoundsThrows, hp]
    cases hr : s.routeLine <;>
      simp [routeResponse, h, onRouteResponse, showRouteInfo, displayRoute, addLayer,
        resetFindRoute, removeIfSet, removeLayer, routeCatch, alert, hr, hf, hp]
  · have hf : fitBoundsThrows d = false := by simpa [fitBoundsThrows] using hp
    cases hr : s.routeLine <;>
      simp [routeResponse, h, onRouteResponse, showRouteInfo, displayRoute, addLayer,
        resetFindRoute, removeIfSet, removeLayer, routeCatch, alert, hr, hf, hp]

/-- C2 as amended, at the stale response of the counterexample. -/
theorem C2_response_rendered_witness :
    staleState.pending[1]? = some (.route (some (.num 12)) (some (.num 47)) "dijkstra") ∧
    sampleRoute.route_points ≠ [] ∧
    (routeResponse 1 (.data sampleRoute) staleState).routeLine = some staleState.nextLayer ∧
    (⟨staleState.nextLayer, .polyline sampleRoute.route_points⟩ : Layer) ∈
      (routeResponse 1 (.data sampleRoute) staleState).layers ∧
    (routeResponse 1 (.data sampleRoute) staleState).selectedEndNode =
      staleState.selectedEndNode ∧
    (routeResponse 1 (.data sampleRoute) staleState).dom.routeInfoHidden = false ∧
    (routeResponse 1 (.data sampleRoute) staleState).dom.routeTime =
      .toFixed sampleRoute.time_minutes 1 ∧
    (routeResponse 1 (.data sampleRoute) staleState).dom.routeDistance =
      .toFixed sampleRoute.distance_km 2 ∧
    (routeResponse 1 (.data sampleRoute) staleState).dom.directions =
      renderSteps 0 sampleRoute.directions :=
  have hp : sampleRoute.route_points ≠ [] := List.cons_ne_nil _ _
  have h := C2_response_rendered_for_any_selection staleState 1 sampleRoute (some (.num 12))
    (some (.num 47)) "dijkstra" rfl
  have hs := h.2.2.2.2.1 hp
  ⟨rfl, hp, h.1, h.2.1, h.2.2.2.1, hs.1, hs.2.1, hs.2.2.1, hs.2.2.2.1⟩

theorem Inv.markers {s : State} (h : Inv s) (t : Slot) :
    (slotMarkers t s ≠ [] ↔ selected t s ≠ none) ∧ (slotMarkers t s).length ≤ 1 ∧
    (∀ l ∈ slotMarkers t s, markerRef t s = some l.id) ∧
    ((markerRef t s).isSome = (selected t s).isSome) := by
  obtain ⟨hsome, hk⟩ := h.2.2.2 t
  cases hm : markerRef t s with
  | none =>
    rw [hm] at hk hsome
    have e : slotMarkers t s = [] := hk
    have hsel : selected t s = none := by
      cases hs : selected t s with
      | none => rfl
      | some x => rw [hs] at hsome; cases hsome
    rw [e, hsel]
    simp
  | some m =>
    rw [hm] at hk hsome
    obtain ⟨lat, lon, e⟩ := hk
    have e2 : slotMarkers t s = [⟨m, .marker lat lon (slotColor t)⟩] := e
    have hsel : selected t s ≠ none := by
      intro hs; rw [hs] at hsome; cases hsome
    rw [e2]
    refine ⟨by simp [hsel], by simp, ?_, ?_⟩
    · intro l hl; rw [List.mem_singleton.1 hl]
    · exact hsome.symm

theorem run_init_inv (dom0 : Dom) (acts : List Action) : Inv (run acts (init dom0)) :=
  run_inv acts _ (init_inv dom0)

/-- C3: after any sequence of `selectNode` and `clearSelectedLocation` calls from
the initial state, for each slot a marker of that slot is on the map if and only
if the slot is non-empty, there is at most one such marker, it is the one the
slot's marker variable names, and that variable is set exactly when the slot is
non-empty. -/
theorem C3_marker_iff_selected (dom0 : Dom) (acts : List SelAction) (t : Slot) :
    (slotMarkers t (run (acts.map SelAction.toAction) (init dom0)) ≠ [] ↔
      selected t (run (acts.map SelAction.toAction) (init dom0)) ≠ none) ∧
    (slotMarkers t (run (acts.map SelAction.toAction) (init dom0))).length ≤ 1 ∧
    (∀ l ∈ slotMarkers t (run (acts.map SelAction.toAction) (init dom0)),
      markerRef t (run (acts.map SelAction.toAction) (init dom0)) = some l.id) ∧
    ((markerRef t (run (acts.map SelAction.toAction) (init dom0))).isSome =
      (selected t (run (acts.map SelAction.toAction) (init dom0))).isSome) :=
  (run_init_inv dom0 (acts.map SelAction.toAction)).markers t

/-- C4 (evaluated where the code departs from it): with the node whose identifier
is the number 0 selected as start and node 47 as end, both slots are populated,
yet `findRoute` shows the validation message and sends no request. -/
theorem C4_findRoute_rejects_id_zero :
    zeroSelected.selectedStartNode = some (.num 0) ∧
    zeroSelected.selectedEndNode = some (.num 47) ∧
    slotMarkers .start zeroSelected ≠ [] ∧ slotMarkers .finish zeroSelected ≠ [] ∧
    routeRequests (findRoute zeroSelected) = [] ∧
    (findRoute zeroSelected).pending = zeroSelected.pending ∧
    (findRoute zeroSelected).alerts = ["Please select both starting point and destination."] :=
  ⟨rfl, rfl, by decide, by decide, rfl, rfl, rfl⟩

theorem onMap_filter_self (m : Nat) (L : List Layer) :
    (L.filter (fun x => x.id != m)).any (fun x => x.id == m) = false := by
  induction L with
  | nil => rfl
  | cons a L ih =>
    by_cases h : a.id = m <;> simp [List.filter_cons, h, ih]


theorem onMap_removeIfSet_self (m : Nat) (s : State) :
    onMap m (removeIfSet (some m) s) = false :=
  onMap_filter_self m s.layers

theorem onMap_of_sub {m : Nat} {s s' : State} (hsub : ∀ l ∈ s'.layers, l ∈ s.layers)
    (h : onMap m s = false) : onMap m s' = false := by
  unfold onMap at h ⊢
  rw [List.any_eq_false] at h ⊢
  exact fun l hl => h l (hsub l hl)

theorem mem_removeIfSet {v : Option Nat} {s : State} {l : Layer} (hl : l ∈ s.layers)
    (hv : v ≠ some l.id) : l ∈ (removeIfSet v s).layers := by
  cases v with
  | none => exact hl
  | some i =>
    refine List.mem_filter.2 ⟨hl, ?_⟩
    have : l.id ≠ i := fun e => hv (by rw [e])
    simpa using this

/-- C5: in every state, `clearSelectedLocation(slot)` leaves the slot empty and its
marker variable empty with the marker it named off the map, leaves the other
slot's node and marker variable as they were, and leaves no route displayed
(`routeLine` empty with the line it named off the map, route panel hidden);
every layer other than that marker and that line stays on the map. -/
theorem C5_clear_slot (t : Slot) (s : State) :
    selected t (clearSelectedLocation t s) = none ∧
    markerRef t (clearSelectedLocation t s) = none ∧
    (∀ m, markerRef t s = some m → onMap m (clearSelectedLocation t s) = false) ∧
    selected t.other (clearSelectedLocation t s) = selected t.other s ∧
    markerRef t.other (clearSelectedLocation t s) = markerRef t.other s ∧
    (clearSelectedLocation t s).routeLine = none ∧
    (∀ r, s.routeLine = some r → onMap r (clearSelectedLocation t s) = false) ∧
    (clearSelectedLocation t s).dom.routeInfoHidden = true ∧
    (∀ l ∈ s.layers, markerRef t s ≠ some l.id → s.routeLine ≠ some l.id →
      l ∈ (clearSelectedLocation t s).layers) := by
  refine ⟨clear_selected_self t s, clear_markerRef_self t s, ?_, clear_selected_other t s,
    clear_markerRef_other t s, clear_routeLine t s, ?_, clear_routeInfoHidden t s, ?_⟩
  · intro m hm
    have h1 : onMap m (removeIfSet (markerRef t s) s) = false := by
      rw [hm]; exact onMap_removeIfSet_self m s
    refine onMap_of_sub ?_ h1
    intro l hl
    rw [clear_layers] at hl
    exact removeIfSet_layers_sub _ _ l hl
  · intro r hr
    unfold onMap
    rw [clear_layers, hr]
    exact onMap_filter_self r _
  · intro l hl hm hr
    rw [clear_layers]
    exact mem_removeIfSet (mem_removeIfSet hl hm) hr

/-- C6 as stated fails: a route request goes out for (12, 47), the start slot is
cleared, and the response then arrives and is drawn; in that state the start slot
is empty, and clearing it again takes the route line off the map and hides the
panel, so the call is not a no-op. -/
theorem C6_clear_empty_slot_removes_route :
    lateState = run [.selectNode node12 .start, .selectNode node47 .finish, .findRoute,
      .clearSelectedLocation .start, .routeResponse 1 (.data sampleRoute)] (init idleDom) ∧
    lateState.pending = [.mapData] ∧
    selected .start lateState = none ∧
    lateState.routeLine = some 3 ∧ onMap 3 lateState = true ∧
    lateState.dom.routeInfoHidden = false ∧
    (clearSelectedLocation .start lateState).routeLine = none ∧
    onMap 3 (clearSelectedLocation .start lateState) = false ∧
    (clearSelectedLocation .start lateState).dom.routeInfoHidden = true ∧
    clearSelectedLocation .start lateState ≠ lateState := by
  refine ⟨rfl, rfl, rfl, rfl, rfl, rfl, rfl, rfl, rfl, ?_⟩
  intro h
  have h2 : (clearSelectedLocation .start lateState).routeLine = lateState.routeLine := by rw [h]
  exact absurd h2 (by decide)

theorem clear_idem (t : Slot) (s : State) :
    clearSelectedLocation t (clearSelectedLocation t s) = clearSelectedLocation t s := by
  cases t
  · cases hm : s.startMarker <;> cases hr : s.routeLine <;>
      simp [clearSelectedLocation, truthy, hideRouteInfo, removeLayer, hm, hr]
  · cases hm : s.endMarker <;> cases hr : s.routeLine <;>
      simp [clearSelectedLocation, truthy, hideRouteInfo, removeLayer, hm, hr]

theorem clear_fields_of_unset (t : Slot) (s : State) (hm : markerRef t s = none) :
    (clearSelectedLocation t s).startMarker = s.startMarker ∧
    (clearSelectedLocation t s).endMarker = s.endMarker ∧
    (clearSelectedLocation t s).layers = (removeIfSet s.routeLine s).layers := by
  cases t
  · simp only [markerRef] at hm
    cases hr : s.routeLine <;>
      simp [clearSelectedLocation, truthy, hideRouteInfo, removeLayer, removeIfSet, hm, hr]
  · simp only [markerRef] at hm
    cases hr : s.routeLine <;>
      simp [clearSelectedLocation, truthy, hideRouteInfo, removeLayer, removeIfSet, hm, hr]

theorem clear_selection_of_empty (t : Slot) (s : State) (h : selected t s = none) :
    (clearSelectedLocation t s).selectedStartNode = s.selectedStartNode ∧
    (clearSelectedLocation t s).selectedEndNode = s.selectedEndNode := by
  have h1 := clear_selected_self t s
  have h2 := clear_selected_other t s
  cases t
  · simp only [selected, Slot.other] at h h1 h2
    exact ⟨by rw [h1, h], h2⟩
  · simp only [selected, Slot.other] at h h1 h2
    exact ⟨h2, by rw [h1, h]⟩

/-- C6 as amended: in every state reached by `selectNode`, `clearSelectedLocation`,
`findRoute` and route-response arrivals, clearing a slot that is already empty
leaves the selection and both marker variables unchanged, takes nothing off the
map but the route line, and ends with no route displayed; when no route is
displayed beforehand the map, `routeLine` and the panel are unchanged as well;
and in every state whatsoever, reachable or not and with the slot empty or not,
a second clear of the same slot changes nothing. -/
theorem C6_clear_empty_slot (dom0 : Dom) (acts : List Action) (t : Slot) :
    (selected t (run acts (init dom0)) = none →
    (clearSelectedLocation t (run acts (init dom0))).selectedStartNode =
      (run acts (init dom0)).selectedStartNode ∧
    (clearSelectedLocation t (run acts (init dom0))).selectedEndNode =
      (run acts (init dom0)).selectedEndNode ∧
    (clearSelectedLocation t (run acts (init dom0))).startMarker =
      (run acts (init dom0)).startMarker ∧
    (clearSelectedLocation t (run acts (init dom0))).endMarker =
      (run acts (init dom0)).endMarker ∧
    (clearSelectedLocation t (run acts (init dom0))).layers =
      (removeIfSet (run acts (init dom0)).routeLine (run acts (init dom0))).layers ∧
    (clearSelectedLocation t (run acts (init dom0))).routeLine = none ∧
    (clearSelectedLocation t (run acts (init dom0))).dom.routeInfoHidden = true ∧
    ((run acts (init dom0)).routeLine = none →
      (run acts (init dom0)).dom.routeInfoHidden = true →
        (clearSelectedLocation t (run acts (init dom0))).layers = (run acts (init dom0)).layers ∧
        (clearSelectedLocation t (run acts (init dom0))).routeLine =
          (run acts (init dom0)).routeLine ∧
        (clearSelectedLocation t (run acts (init dom0))).dom.routeInfoHidden =
          (run acts (init dom0)).dom.routeInfoHidden)) ∧
    (∀ s : State, clearSelectedLocation t (clearSelectedLocation t s) =
      clearSelectedLocation t s) := by
  refine ⟨?_, clear_idem t⟩
  intro h
  have hinv := run_init_inv dom0 acts
  generalize run acts (init dom0) = s at h hinv ⊢
  have hm : markerRef t s = none := by
    have := (hinv.markers t).2.2.2
    rw [h] at this
    cases hx : markerRef t s with
    | none => rfl
    | some x => rw [hx] at this; cases this
  obtain ⟨f1, f2, f3⟩ := clear_fields_of_unset t s hm
  obtain ⟨g1, g2⟩ := clear_selection_of_empty t s h
  refine ⟨g1, g2, f1, f2, f3, clear_routeLine t s, clear_routeInfoHidden t s, ?_⟩
  intro hr hp
  refine ⟨?_, ?_, ?_⟩
  · rw [f3, hr]; rfl
  · rw [clear_routeLine, hr]
  · rw [clear_routeInfoHidden, hp]

/-- C6 as amended, at the page where the response arrived after the start slot
was cleared: clearing the empty start slot keeps the selection and the markers,
removes the route, and a second clear changes nothing. -/
theorem C6_clear_empty_slot_witness :
    selected .start (run lateActs (init idleDom)) = none ∧
    (clearSelectedLocation .start (run lateActs (init idleDom))).selectedEndNode =
      (run lateActs (init idleDom)).selectedEndNode ∧
    (clearSelectedLocation .start (run lateActs (init idleDom))).endMarker =
      (run lateActs (init idleDom)).endMarker ∧
    (clearSelectedLocation .start (run lateActs (init idleDom))).routeLine = none ∧
    clearSelectedLocation .start (clearSelectedLocation .start (run lateActs (init idleDom))) =
      clearSelectedLocation .start (run lateActs (init idleDom)) :=
  have h := (C6_clear_empty_slot idleDom lateActs .start).1 rfl
  ⟨rfl, h.2.1, h.2.2.2.1, h.2.2.2.2.2.1,
    (C6_clear_empty_slot idleDom lateActs .start).2 (run lateActs (init idleDom))⟩

/-- C7: for every map centre, `exploreArea(direction)` sends the centre itself for
`C`, and the centre moved by 0.01 in latitude and/or longitude as the direction
says for the eight others; `N` strictly increases the latitude and keeps the
longitude; the radius sent is 0.01 and `mapCenter` is not modified. -/
theorem C7_exploreArea_query (s : State) :
    (exploreArea "C" s).pending =
      s.pending ++ [.exploreArea s.mapCenter.1 s.mapCenter.2 (1 / 100)] ∧
    (exploreArea "N" s).pending =
      s.pending ++ [.exploreArea (s.mapCenter.1 + 1 / 100) s.mapCenter.2 (1 / 100)] ∧
    (exploreArea "S" s).pending =
      s.pending ++ [.exploreArea (s.mapCenter.1 - 1 / 100) s.mapCenter.2 (1 / 100)] ∧
    (exploreArea "E" s).pending =
      s.pending ++ [.exploreArea s.mapCenter.1 (s.mapCenter.2 + 1 / 100) (1 / 100)] ∧
    (exploreArea "W" s).pending =
      s.pending ++ [.exploreArea s.mapCenter.1 (s.mapCenter.2 - 1 / 100) (1 / 100)] ∧
    (exploreArea "NE" s).pending =
      s.pending ++ [.exploreArea (s.mapCenter.1 + 1 / 100) (s.mapCenter.2 + 1 / 100) (1 / 100)] ∧
    (exploreArea "NW" s).pending =
      s.pending ++ [.exploreArea (s.mapCenter.1 + 1 / 100) (s.mapCenter.2 - 1 / 100) (1 / 100)] ∧
    (exploreArea "SE" s).pending =
      s.pending ++ [.exploreArea (s.mapCenter.1 - 1 / 100) (s.mapCenter.2 + 1 / 100) (1 / 100)] ∧
    (exploreArea "SW" s).pending =
      s.pending ++ [.exploreArea (s.mapCenter.1 - 1 / 100) (s.mapCenter.2 - 1 / 100) (1 / 100)] ∧
    s.mapCenter.1 < (exploreQuery s.mapCenter "N").1 ∧
    (exploreQuery s.mapCenter "N").2 = s.mapCenter.2 ∧
    (∀ direction, (exploreArea direction s).pending =
      s.pending ++ [.exploreArea (exploreQuery s.mapCenter direction).1
        (exploreQuery s.mapCenter direction).2 (1 / 100)]) ∧
    (∀ direction, (exploreArea direction s).mapCenter = s.mapCenter) := by
  have hN : exploreQuery s.mapCenter "N" = (s.mapCenter.1 + 1 / 100, s.mapCenter.2) := by
    simp [exploreQuery]
  refine ⟨?_, ?_, ?_, ?_, ?_, ?_, ?_, ?_, ?_, ?_, ?_, fun _ => rfl, fun _ => rfl⟩
  · simp [exploreArea, exploreQuery]
  · simp [exploreArea, exploreQuery]
  · simp [exploreArea, exploreQuery]
  · simp [exploreArea, exploreQuery]
  · simp [exploreArea, exploreQuery]
  · simp [exploreArea, exploreQuery]
  · simp [exploreArea, exploreQuery]
  · simp [exploreArea, exploreQuery]
  · simp [exploreArea, exploreQuery]
  · rw [hN]; show s.mapCenter.1 < s.mapCenter.1 + 1 / 100
    linarith
  · rw [hN]

theorem areaItems_map (nodes : List Node) :
    areaItems (nodes.map .resultItem) = nodes := by
  induction nodes with
  | nil => rfl
  | cons a l ih => simpa [areaItems] using ih

theorem areaItems_append (xs ys : List AreaElement) :
    areaItems (xs ++ ys) = areaItems xs ++ areaItems ys := by
  simp [areaItems, List.filterMap_append]

theorem areaItems_areaElements (nodes : List Node) :
    areaItems (areaElements nodes) = nodes.take 20 := by
  unfold areaElements
  by_cases h0 : nodes.length = 0
  · have : nodes = [] := List.length_eq_zero.1 h0
    subst this; rfl
  · rw [if_neg h0, areaItems_append, areaItems_map]
    by_cases h : nodes.length > 20
    · rw [if_pos h]; simp [areaItems]
    · rw [if_neg h]; simp [areaItems]

theorem moreMessage_mem_areaElements (nodes : List Node) (k : Nat) :
    AreaElement.moreMessage k ∈ areaElements nodes ↔ nodes.length > 20 ∧ k = nodes.length - 20 := by
  unfold areaElements
  by_cases h0 : nodes.length = 0
  · rw [if_pos h0]; simp; omega
  · rw [if_neg h0]
    have hno : AreaElement.moreMessage k ∉ List.map AreaElement.resultItem (List.take 20 nodes) := by
      intro hk
      obtain ⟨n, _, hn⟩ := List.mem_map.1 hk
      cases hn
    by_cases h : nodes.length > 20
    · rw [if_pos h, List.mem_append]
      constructor
      · rintro (hk | hk)
        · exact absurd hk hno
        · exact ⟨h, by simpa using hk⟩
      · rintro ⟨_, rfl⟩
        exact Or.inr (List.mem_singleton.2 rfl)
    · rw [if_neg h, List.append_nil]
      exact ⟨fun hk => absurd hk hno, fun hk => absurd hk.1 h⟩

/-- C8: for every list of `n` returned nodes, the selectable items `showAreaResults`
renders are the first `min(20, n)` nodes in their order, exactly `min(20, n)` of
them, and the more-nodes indicator is rendered if and only if `n > 20`, showing
`n - 20`. -/
theorem C8_showAreaResults (nodes : List Node) (s : State) :
    areaItems (showAreaResults nodes s).dom.areaResults = nodes.take 20 ∧
    (areaItems (showAreaResults nodes s).dom.areaResults).length = min 20 nodes.length ∧
    (∀ k, AreaElement.moreMessage k ∈ (showAreaResults nodes s).dom.areaResults ↔
      nodes.length > 20 ∧ k = nodes.length - 20) ∧
    (((showAreaResults nodes s).dom.areaResults.filter
      (fun e => match e with | .moreMessage _ => true | _ => false)).length ≤ 1) := by
  have e : (showAreaResults nodes s).dom.areaResults = areaElements nodes := rfl
  rw [e, areaItems_areaElements]
  refine ⟨rfl, by simp [List.length_take], moreMessage_mem_areaElements nodes, ?_⟩
  unfold areaElements
  by_cases h0 : nodes.length = 0
  · rw [if_pos h0]; simp
  · rw [if_neg h0, List.filter_append]
    have hz : (List.map AreaElement.resultItem (List.take 20 nodes)).filter
        (fun e => match e with | .moreMessage _ => true | _ => false) = [] := by
      rw [List.filter_eq_nil_iff]
      intro a ha
      obtain ⟨n, _, rfl⟩ := List.mem_map.1 ha
      simp
    rw [hz]
    by_cases h : nodes.length > 20
    · rw [if_pos h]; simp
    · rw [if_neg h]; simp


/-- C9 (evaluated where the code departs from it): with both slots selected and
no route displayed, a successful traffic update sends a route request; and with a
route displayed while the start slot holds the identifier 0, a successful
traffic update sends none. -/
theorem C9_refresh_tests_selection_only :
    bothSelected.routeLine = none ∧ polylines bothSelected = [] ∧
    bothSelected.dom.routeInfoHidden = true ∧
    routeRequests (updateTraffic bothSelected) = [] ∧
    routeRequests (trafficResponse 1 "12:00:00" .ok (updateTraffic bothSelected)) =
      [.route (some (.num 12)) (some (.num 47)) "dijkstra"] ∧
    zeroRouteShown.routeLine = some 3 ∧ onMap 3 zeroRouteShown = true ∧
    zeroRouteShown.dom.routeInfoHidden = false ∧
    zeroRouteShown.selectedStartNode = some (.num 0) ∧
    zeroRouteShown.selectedEndNode = some (.num 47) ∧
    routeRequests (trafficResponse 1 "12:00:00" .ok (updateTraffic zeroRouteShown)) = [] :=
  ⟨rfl, rfl, rfl, rfl, rfl, rfl, rfl, rfl, rfl, rfl, rfl⟩

/-- A route request in flight that is completed by a payload with a non-empty
`error` message or by a transport failure leaves the route line, the map, the
rendered metrics and directions, the visibility of the route panel and the
selection as they were, and puts the find-route button back to enabled with the
label 'Find Best Route'. -/
theorem routeResponse_failure_frame (s : State) (i : Nat) (a b : Option NodeId)
    (alg : String) (r : RouteResponse) (h : s.pending[i]? = some (.route a b alg))
    (hr : r = .failure ∨ ∃ msg, msg ≠ "" ∧ r = .error msg) :
    (routeResponse i r s).routeLine = s.routeLine ∧
    (routeResponse i r s).layers = s.layers ∧
    (routeResponse i r s).dom.routeTime = s.dom.routeTime ∧
    (routeResponse i r s).dom.routeDistance = s.dom.routeDistance ∧
    (routeResponse i r s).dom.directions = s.dom.directions ∧
    (routeResponse i r s).dom.routeInfoHidden = s.dom.routeInfoHidden ∧
    (routeResponse i r s).selectedStartNode = s.selectedStartNode ∧
    (routeResponse i r s).selectedEndNode = s.selectedEndNode ∧
    (routeResponse i r s).dom.findRouteDisabled = false ∧
    (routeResponse i r s).dom.findRouteText = "Find Best Route" ∧
    (routeResponse i r s).pending = s.pending.eraseIdx i := by
  rcases hr with hr | ⟨msg, hmsg, hr⟩
  · subst hr
    simp [routeResponse, h, onRouteResponse, routeCatch, alert, resetFindRoute]
  · subst hr
    simp [routeResponse, h, onRouteResponse, hmsg, alert, resetFindRoute]

/-- C10 (evaluated where the code departs from it): with the route for (12, 47)
displayed and a second route request in flight, the backend-reported error
payload whose `error` is the empty string is taken for route data: the displayed
polyline is taken off the map while `routeLine` still names it and the panel
still shows the old route, the generic error is alerted and the button is put
back; with the message 'No route found' the same state keeps its route. -/
theorem C10_empty_error_removes_route :
    (findRoute routeShown).pending[1]? =
      some (.route (some (.num 12)) (some (.num 47)) "dijkstra") ∧
    (findRoute routeShown).routeLine = some 3 ∧
    onMap 3 (findRoute routeShown) = true ∧
    polylines (findRoute routeShown) = [⟨3, .polyline sampleRoute.route_points⟩] ∧
    (findRoute routeShown).dom.routeInfoHidden = false ∧
    (routeResponse 1 (.error "") (findRoute routeShown)).routeLine = some 3 ∧
    onMap 3 (routeResponse 1 (.error "") (findRoute routeShown)) = false ∧
    polylines (routeResponse 1 (.error "") (findRoute routeShown)) = [] ∧
    (routeResponse 1 (.error "") (findRoute routeShown)).dom.routeInfoHidden = false ∧
    (routeResponse 1 (.error "") (findRoute routeShown)).dom.findRouteDisabled = false ∧
    (routeResponse 1 (.error "") (findRoute routeShown)).dom.findRouteText =
      "Find Best Route" ∧
    (routeResponse 1 (.error "") (findRoute routeShown)).alerts =
      ["Error finding route. Please try again."] ∧
    onMap 3 (routeResponse 1 (.error "No route found") (findRoute routeShown)) = true ∧
    polylines (routeResponse 1 (.error "No route found") (findRoute routeShown)) =
      [⟨3, .polyline sampleRoute.route_points⟩] :=
  ⟨rfl, rfl, rfl, rfl, rfl, rfl, rfl, rfl, rfl, rfl, rfl, rfl, rfl, rfl⟩

theorem showSearchResults_nil (t : Slot) (s : State) :
    showSearchResults [] t s = setResults t ⟨[], "none"⟩ s := by
  cases t <;> rfl

theorem showSearchResults_eq (nodes : List Node) (t : Slot) (s : State) :
    showSearchResults nodes t s =
      setResults t ⟨nodes, if nodes.length = 0 then "none" else "block"⟩ s := by
  by_cases h : nodes.length = 0
  · have : nodes = [] := List.length_eq_zero.1 h
    subst this
    cases t <;> rfl
  · cases t <;> simp [showSearchResults, clearResultItems, setResults, resultsOf, h]

theorem setResults_clearResultItems (t : Slot) (r : ResultList) (s : State) :
    setResults t r (clearResultItems t s) = setResults t r s := by
  cases t <;> rfl

theorem onGeocodeResponse_failed (t : Slot) (r : GeocodeResponse) (s : State)
    (hr : ∀ d, r ≠ .data d) :
    ∃ msg, onGeocodeResponse t r s = alert msg (setResults t ⟨[], "none"⟩ s) := by
  cases r with
  | data d => exact absurd rfl (hr d)
  | failure =>
    exact ⟨"Error searching for location. Please try again.",
      by rw [onGeocodeResponse, geocodeCatch, showSearchResults_nil]⟩
  | error msg =>
    by_cases hmsg : msg ≠ ""
    · refine ⟨msg, ?_⟩
      have e : onGeocodeResponse t (.error msg) s = alert msg (showSearchResults [] t s) :=
        if_pos hmsg
      rw [e, showSearchResults_nil]
    · refine ⟨"Error searching for location. Please try again.", ?_⟩
      have e : onGeocodeResponse t (.error msg) s = geocodeCatch t (clearResultItems t s) :=
        if_neg hmsg
      rw [e, geocodeCatch, showSearchResults_nil, setResults_clearResultItems]

theorem onGeocodeResponse_data (t : Slot) (d : GeocodeData) (s : State) :
    onGeocodeResponse t (.data d) s =
      addLayer (.circleMarker d.coordinates.1 d.coordinates.2)
        (setResults t ⟨d.nearest_nodes, if d.nearest_nodes.length = 0 then "none" else "block"⟩ s) := by
  rw [onGeocodeResponse, showSearchResults_eq]

theorem resultsOf_setResults_self (t : Slot) (r : ResultList) (s : State) :
    resultsOf t (setResults t r s) = r := by
  cases t <;> rfl

theorem resultsOf_setResults_other (t : Slot) (r : ResultList) (s : State) :
    resultsOf t.other (setResults t r s) = resultsOf t.other s := by
  cases t <;> rfl

theorem setResults_frame (t : Slot) (r : ResultList) (s : State) :
    (setResults t r s).selectedStartNode = s.selectedStartNode ∧
    (setResults t r s).selectedEndNode = s.selectedEndNode ∧
    (setResults t r s).startMarker = s.startMarker ∧
    (setResults t r s).endMarker = s.endMarker ∧
    (setResults t r s).layers = s.layers ∧
    (setResults t r s).nextLayer = s.nextLayer ∧
    (setResults t r s).routeLine = s.routeLine ∧
    (setResults t r s).dom.routeInfoHidden = s.dom.routeInfoHidden := by
  cases t <;> exact ⟨rfl, rfl, rfl, rfl, rfl, rfl, rfl, rfl⟩


/-- C11: for every slot `t` and every outcome of a pending geocode request of
`searchLocation(q, t)`, handling the response leaves the other slot's result
list, both selected nodes, both marker variables, the slot markers on the map,
`routeLine`, the route polylines on the map and the route panel as they were;
on a backend error or a transport failure slot `t`'s list ends empty and hidden,
and on success it holds the returned candidates. -/
theorem C11_geocode_response_frame (s : State) (i : Nat) (q : String) (t : Slot)
    (r : GeocodeResponse) (h : s.pending[i]? = some (.geocode q t)) :
    resultsOf t.other (geocodeResponse i r s) = resultsOf t.other s ∧
    (geocodeResponse i r s).selectedStartNode = s.selectedStartNode ∧
    (geocodeResponse i r s).selectedEndNode = s.selectedEndNode ∧
    (geocodeResponse i r s).startMarker = s.startMarker ∧
    (geocodeResponse i r s).endMarker = s.endMarker ∧
    (∀ u, slotMarkers u (geocodeResponse i r s) = slotMarkers u s) ∧
    (geocodeResponse i r s).routeLine = s.routeLine ∧
    polylines (geocodeResponse i r s) = polylines s ∧
    (geocodeResponse i r s).dom.routeInfoHidden = s.dom.routeInfoHidden ∧
    ((∀ d, r ≠ .data d) → resultsOf t (geocodeResponse i r s) = ⟨[], "none"⟩) ∧
    (∀ d, r = .data d → (resultsOf t (geocodeResponse i r s)).items = d.nearest_nodes) := by
  have e : geocodeResponse i r s =
      onGeocodeResponse t r { s with pending := s.pending.eraseIdx i } := by
    simp [geocodeResponse, h]
  rw [e]
  cases r with
  | data d =>
    rw [onGeocodeResponse_data]
    cases t <;>
      simp [addLayer, setResults, resultsOf, slotMarkers, polylines, List.filter_append,
        isSlotMarker, Slot.other]
  | failure =>
    obtain ⟨msg, hm⟩ := onGeocodeResponse_failed t .failure
      { s with pending := s.pending.eraseIdx i } (fun d => by simp)
    rw [hm]
    cases t <;> simp [alert, setResults, resultsOf, slotMarkers, polylines, Slot.other]
  | error m =>
    obtain ⟨msg, hm⟩ := onGeocodeResponse_failed t (.error m)
      { s with pending := s.pending.eraseIdx i } (fun d => by simp)
    rw [hm]
    cases t <;> simp [alert, setResults, resultsOf, slotMarkers, polylines, Slot.other]

/-- C11 with the route for (12, 47) displayed, two candidates listed for the end
slot, and a search for the start slot in flight: a backend error leaves the end
list, the selection, the markers and the route as they are and leaves the
start list empty and hidden. -/
theorem C11_geocode_response_witness :
    searching.pending[1]? = some (.geocode "Mill Avenue" .start) ∧
    resultsOf .finish (geocodeResponse 1 (.error "Location not found") searching) =
      ⟨[near5, near12], "block"⟩ ∧
    (geocodeResponse 1 (.error "Location not found") searching).routeLine = some 3 ∧
    (geocodeResponse 1 (.error "Location not found") searching).selectedStartNode =
      some (.num 12) ∧
    (geocodeResponse 1 (.error "Location not found") searching).selectedEndNode =
      some (.num 47) ∧
    resultsOf .start (geocodeResponse 1 (.error "Location not found") searching) =
      ⟨[], "none"⟩ :=
  have h := C11_geocode_response_frame searching 1 "Mill Avenue" .start
    (.error "Location not found") rfl
  ⟨rfl, h.1, h.2.2.2.2.2.2.1, h.2.1, h.2.2.1, h.2.2.2.2.2.2.2.2.2.1 (fun d => by simp)⟩


theorem renderSteps_length (k : Nat) (steps : List DirectionStep) :
    (renderSteps k steps).length = steps.length := by
  induction steps generalizing k with
  | nil => rfl
  | cons a l ih => simp [renderSteps, ih]

theorem renderSteps_getElem? (k : Nat) (steps : List DirectionStep) (i : Nat) :
    (renderSteps k steps)[i]? = steps[i]?.map (fun step =>
      { stepNumber := k + i + 1
        direction := step.direction
        road_name := step.road_name
        distance := .toFixed step.distance 0
        next_intersection := step.next_intersection
        trafficClass := trafficClass step.traffic_status
        traffic_status := step.traffic_status }) := by
  induction steps generalizing k i with
  | nil => simp [renderSteps]
  | cons a l ih =>
    cases i with
    | zero => simp [renderSteps]
    | succ j =>
      simp only [renderSteps, List.getElem?_cons_succ]
      rw [ih (k + 1) j]
      have : k + 1 + j + 1 = k + (j + 1) + 1 := by omega
      rw [this]

theorem trafficClass_cases (status : String) :
    (status = "moderate traffic" → trafficClass status = "traffic-moderate") ∧
    (status = "heavy traffic" → trafficClass status = "traffic-heavy") ∧
    (status ≠ "moderate traffic" → status ≠ "heavy traffic" →
      trafficClass status = "traffic-light") := by
  refine ⟨?_, ?_, ?_⟩
  · rintro rfl; rfl
  · rintro rfl; rfl
  · intro h1 h2; simp [trafficClass, h1, h2]

/-- C12: for every route response with `n` directions, `showRouteInfo` replaces
the directions panel by exactly `n` step elements in the order of the response,
the `i`-th (from 0) numbered `i + 1` and showing the step's instruction, road,
distance, next intersection and status, with the badge class `traffic-moderate`
for 'moderate traffic', `traffic-heavy` for 'heavy traffic' and `traffic-light`
for every other status, and makes the route panel visible; for the example
response this is one step numbered 1 with the moderate-traffic badge. -/
theorem C12_showRouteInfo_steps (routeData : RouteData) (s : State) :
    (showRouteInfo routeData s).dom.directions.length = routeData.directions.length ∧
    (∀ i step, routeData.directions[i]? = some step →
      ∃ e, (showRouteInfo routeData s).dom.directions[i]? = some e ∧
        e.stepNumber = i + 1 ∧
        e.direction = step.direction ∧ e.road_name = step.road_name ∧
        e.distance = .toFixed step.distance 0 ∧
        e.next_intersection = step.next_intersection ∧
        e.traffic_status = step.traffic_status ∧
        (step.traffic_status = "moderate traffic" → e.trafficClass = "traffic-moderate") ∧
        (step.traffic_status = "heavy traffic" → e.trafficClass = "traffic-heavy") ∧
        (step.traffic_status ≠ "moderate traffic" → step.traffic_status ≠ "heavy traffic" →
          e.trafficClass = "traffic-light")) ∧
    (showRouteInfo routeData s).dom.routeInfoHidden = false ∧
    (showRouteInfo sampleRoute s).dom.directions =
      [{ stepNumber := 1
         direction := "Turn right"
         road_name := "Mill Ave"
         distance := .toFixed 120 0
         next_intersection := "5th St"
         trafficClass := "traffic-moderate"
         traffic_status := "moderate traffic" }] := by
  have e : (showRouteInfo routeData s).dom.directions = renderSteps 0 routeData.directions := rfl
  refine ⟨by rw [e, renderSteps_length], ?_, rfl, rfl⟩
  intro i step hi
  rw [e, renderSteps_getElem?, hi]
  refine ⟨_, rfl, by simp, rfl, rfl, rfl, rfl, rfl, ?_⟩
  exact trafficClass_cases step.traffic_status

end GridSmart
